import Mathlib

/-!
Verification development for the Yapily financial model repository.

The capitalization ledger (`cap_table.py`), the Series C / hybrid round
(`CapTableManager.add_series_c_round`), the exit waterfall
(`exit_waterfall.py`) and the orchestrator's projection-row lookups
(`financial_model.py`) are embedded shallowly over exact rationals:
every Python float literal is translated to the rational it denotes and
every arithmetic operation is mirrored one-for-one.  Python divisions
whose denominator can be zero (a `ZeroDivisionError` site) are modelled
with an explicit guard returning `Except`.
-/

namespace FinModel

/-! ## Configuration (`config_assumptions.py`) -/

/-- Mirror of the `SeriesCAssumptions` dataclass: the hybrid (Series C)
round parameters.  `closeYear` is `close_date.year`. -/
structure SeriesCAssumptions where
  amount : ℚ
  closeYear : ℤ
  equityPct : ℚ
  debtPct : ℚ
  convertiblePct : ℚ
  debtInterestRate : ℚ
  debtRolledUp : Bool
  convertibleInterestRate : ℚ
  convertibleRolledUp : Bool
  preMoneyArrMultiple : ℚ

/-- Default values of `SeriesCAssumptions` (amount £11M, close Q1 2026,
70/15/15 split, 10% debt and 8% convertible interest, both rolled up,
6.0x ARR pre-money multiple). -/
def defaultSeriesC : SeriesCAssumptions :=
  { amount := 11000000
    closeYear := 2026
    equityPct := 70/100
    debtPct := 15/100
    convertiblePct := 15/100
    debtInterestRate := 10/100
    debtRolledUp := true
    convertibleInterestRate := 8/100
    convertibleRolledUp := true
    preMoneyArrMultiple := 6 }

/-- Mirror of the `HistoricalFunding` dataclass (only the fields the
waterfall and conversion steps read). -/
structure HistoricalFunding where
  cln2024 : ℚ
  cln2024Interest : ℚ
  cln2024Discount : ℚ
  cln2025 : ℚ
  cln2025Interest : ℚ
  cln2025Discount : ℚ

/-- Default values of `HistoricalFunding`. -/
def defaultHistoricalFunding : HistoricalFunding :=
  { cln2024 := 6000000
    cln2024Interest := 8/100
    cln2024Discount := 20/100
    cln2025 := 4000000
    cln2025Interest := 8/100
    cln2025Discount := 20/100 }

/-- Mirror of the `ExitAssumptions` dataclass. -/
structure ExitAssumptions where
  exitYear : ℤ
  valuationBasis : String
  arrMultiple : ℚ
  ebitdaMultiple : ℚ

/-- Default values of `ExitAssumptions` (2030 exit, higher-of basis,
8.5x ARR, 20x EBITDA). -/
def defaultExit : ExitAssumptions :=
  { exitYear := 2030
    valuationBasis := "higher_of_arr_or_ebitda"
    arrMultiple := 85/10
    ebitdaMultiple := 20 }

/-! ## Cap table (`cap_table.py`, `CapTableManager._build_cap_table`) -/

/-- The per-round stakeholder share map (the `stakeholders` dict of each
round record, with its seven fixed keys). -/
structure Stakeholders where
  founder : ℚ
  seed : ℚ
  seriesA : ℚ
  seriesB : ℚ
  clnHolder : ℚ
  seriesC : ℚ
  optionPool : ℚ

/-- `sum(stakeholder_shares.values())` for one round. -/
def Stakeholders.total (s : Stakeholders) : ℚ :=
  s.founder + s.seed + s.seriesA + s.seriesB + s.clnHolder + s.seriesC + s.optionPool

/-- One financing-round record (one dict in `CapTableManager.rounds`). -/
structure Round where
  year : ℤ
  roundName : String
  investment : ℚ
  preMoneyVal : ℚ
  postMoneyVal : ℚ
  pricePerShare : ℚ
  sharesIssuedThisRound : ℚ
  totalShares : ℚ
  optionPoolCreated : ℚ
  stakeholders : Stakeholders

/-- `founder_shares = 10_000_000`. -/
def founder_shares : ℚ := 10000000

/-- `founder_investment = 661_000`. -/
def founder_investment : ℚ := 661000

/-- Round 1: Founder 2018. -/
def round_1 : Round :=
  { year := 2018
    roundName := "Founder"
    investment := founder_investment
    preMoneyVal := 0
    postMoneyVal := founder_investment
    pricePerShare := founder_investment / founder_shares
    sharesIssuedThisRound := founder_shares
    totalShares := founder_shares
    optionPoolCreated := 0
    stakeholders :=
      { founder := founder_shares, seed := 0, seriesA := 0, seriesB := 0
        clnHolder := 0, seriesC := 0, optionPool := 0 } }

/-- `seed_investment = 3_500_000`. -/
def seed_investment : ℚ := 3500000

/-- `seed_post_money = 20_000_000`. -/
def seed_post_money : ℚ := 20000000

/-- `seed_pre_money = seed_post_money - seed_investment`. -/
def seed_pre_money : ℚ := seed_post_money - seed_investment

/-- `seed_price_per_share = seed_pre_money / founder_shares`. -/
def seed_price_per_share : ℚ := seed_pre_money / founder_shares

/-- `seed_investor_shares = seed_investment / seed_price_per_share`. -/
def seed_investor_shares : ℚ := seed_investment / seed_price_per_share

/-- `shares_after_seed = founder_shares + seed_investor_shares`. -/
def shares_after_seed : ℚ := founder_shares + seed_investor_shares

/-- `option_pool_shares = shares_after_seed * 0.15 / 0.85`. -/
def option_pool_shares : ℚ := shares_after_seed * (15/100) / (85/100)

/-- `total_shares_seed = shares_after_seed + option_pool_shares`. -/
def total_shares_seed : ℚ := shares_after_seed + option_pool_shares

/-- Round 2: Seed 2019. -/
def round_2 : Round :=
  { year := 2019
    roundName := "Seed"
    investment := seed_investment
    preMoneyVal := seed_pre_money
    postMoneyVal := seed_post_money
    pricePerShare := seed_price_per_share
    sharesIssuedThisRound := seed_investor_shares
    totalShares := total_shares_seed
    optionPoolCreated := option_pool_shares
    stakeholders :=
      { founder := founder_shares, seed := seed_investor_shares, seriesA := 0
        seriesB := 0, clnHolder := 0, seriesC := 0, optionPool := option_pool_shares } }

/-- `series_a_investment = 10_300_000`. -/
def series_a_investment : ℚ := 10300000

/-- `series_a_post_money = 50_000_000`. -/
def series_a_post_money : ℚ := 50000000

/-- `series_a_pre_money = series_a_post_money - series_a_investment`. -/
def series_a_pre_money : ℚ := series_a_post_money - series_a_investment

/-- `series_a_price_per_share = series_a_pre_money / total_shares_seed`. -/
def series_a_price_per_share : ℚ := series_a_pre_money / total_shares_seed

/-- `series_a_investor_shares = series_a_investment / series_a_price_per_share`. -/
def series_a_investor_shares : ℚ := series_a_investment / series_a_price_per_share

/-- `shares_after_a = total_shares_seed + series_a_investor_shares`. -/
def shares_after_a : ℚ := total_shares_seed + series_a_investor_shares

/-- `target_option_pool_a = shares_after_a * 0.15 / 0.85`. -/
def target_option_pool_a : ℚ := shares_after_a * (15/100) / (85/100)

/-- `option_pool_top_up_a = target_option_pool_a - option_pool_shares`. -/
def option_pool_top_up_a : ℚ := target_option_pool_a - option_pool_shares

/-- `total_shares_a = shares_after_a + option_pool_top_up_a`. -/
def total_shares_a : ℚ := shares_after_a + option_pool_top_up_a

/-- Round 3: Series A 2020. -/
def round_3 : Round :=
  { year := 2020
    roundName := "Series A"
    investment := series_a_investment
    preMoneyVal := series_a_pre_money
    postMoneyVal := series_a_post_money
    pricePerShare := series_a_price_per_share
    sharesIssuedThisRound := series_a_investor_shares
    totalShares := total_shares_a
    optionPoolCreated := option_pool_top_up_a
    stakeholders :=
      { founder := founder_shares, seed := seed_investor_shares
        seriesA := series_a_investor_shares, seriesB := 0, clnHolder := 0
        seriesC := 0, optionPool := target_option_pool_a } }

/-- `series_b_investment = 36_900_000`. -/
def series_b_investment : ℚ := 36900000

/-- `series_b_post_money = 166_000_000`. -/
def series_b_post_money : ℚ := 166000000

/-- `series_b_pre_money = series_b_post_money - series_b_investment`. -/
def series_b_pre_money : ℚ := series_b_post_money - series_b_investment

/-- `series_b_price_per_share = series_b_pre_money / total_shares_a`. -/
def series_b_price_per_share : ℚ := series_b_pre_money / total_shares_a

/-- `series_b_investor_shares = series_b_investment / series_b_price_per_share`. -/
def series_b_investor_shares : ℚ := series_b_investment / series_b_price_per_share

/-- `shares_after_b = total_shares_a + series_b_investor_shares`. -/
def shares_after_b : ℚ := total_shares_a + series_b_investor_shares

/-- `target_option_pool_b = shares_after_b * 0.15 / 0.85`. -/
def target_option_pool_b : ℚ := shares_after_b * (15/100) / (85/100)

/-- `option_pool_top_up_b = target_option_pool_b - target_option_pool_a`. -/
def option_pool_top_up_b : ℚ := target_option_pool_b - target_option_pool_a

/-- `total_shares_b = shares_after_b + option_pool_top_up_b`. -/
def total_shares_b : ℚ := shares_after_b + option_pool_top_up_b

/-- Round 4: Series B 2021. -/
def round_4 : Round :=
  { year := 2021
    roundName := "Series B"
    investment := series_b_investment
    preMoneyVal := series_b_pre_money
    postMoneyVal := series_b_post_money
    pricePerShare := series_b_price_per_share
    sharesIssuedThisRound := series_b_investor_shares
    totalShares := total_shares_b
    optionPoolCreated := option_pool_top_up_b
    stakeholders :=
      { founder := founder_shares, seed := seed_investor_shares
        seriesA := series_a_investor_shares, seriesB := series_b_investor_shares
        clnHolder := 0, seriesC := 0, optionPool := target_option_pool_b } }

/-- Round 5: CLN 2024 (no dilution: shares unchanged). -/
def round_5 : Round :=
  { year := 2024
    roundName := "CLN"
    investment := 6000000
    preMoneyVal := 0
    postMoneyVal := 0
    pricePerShare := 0
    sharesIssuedThisRound := 0
    totalShares := total_shares_b
    optionPoolCreated := 0
    stakeholders :=
      { founder := founder_shares, seed := seed_investor_shares
        seriesA := series_a_investor_shares, seriesB := series_b_investor_shares
        clnHolder := 0, seriesC := 0, optionPool := target_option_pool_b } }

/-- Round 6: CLN 2025 (no dilution: shares unchanged). -/
def round_6 : Round :=
  { year := 2025
    roundName := "CLN"
    investment := 4000000
    preMoneyVal := 0
    postMoneyVal := 0
    pricePerShare := 0
    sharesIssuedThisRound := 0
    totalShares := total_shares_b
    optionPoolCreated := 0
    stakeholders :=
      { founder := founder_shares, seed := seed_investor_shares
        seriesA := series_a_investor_shares, seriesB := series_b_investor_shares
        clnHolder := 0, seriesC := 0, optionPool := target_option_pool_b } }

/-- `self.pre_series_c_shares = total_shares_b`. -/
def pre_series_c_shares : ℚ := total_shares_b

/-- `self.pre_series_c_option_pool = target_option_pool_b`. -/
def pre_series_c_option_pool : ℚ := target_option_pool_b

/-! ## Series C / hybrid round (`CapTableManager.add_series_c_round`) -/

/-- `pre_money_val = arr_at_close * pre_money_arr_multiple`. -/
def pre_money_val (sc : SeriesCAssumptions) (arr_at_close : ℚ) : ℚ :=
  arr_at_close * sc.preMoneyArrMultiple

/-- `cln_2024_with_interest = 6_000_000 * 1.08 ** (close_year - 2024)`
(the principal, rate and discount are literals in the source). -/
def cln_2024_with_interest (sc : SeriesCAssumptions) : ℚ :=
  6000000 * (108/100) ^ (sc.closeYear - 2024)

/-- `cln_2024_converted = cln_2024_with_interest * 0.8` (20% discount). -/
def cln_2024_converted (sc : SeriesCAssumptions) : ℚ :=
  cln_2024_with_interest sc * (8/10)

/-- `cln_2025_with_interest = 4_000_000 * 1.08 ** (close_year - 2025)`. -/
def cln_2025_with_interest (sc : SeriesCAssumptions) : ℚ :=
  4000000 * (108/100) ^ (sc.closeYear - 2025)

/-- `cln_2025_converted = cln_2025_with_interest * 0.8` (20% discount). -/
def cln_2025_converted (sc : SeriesCAssumptions) : ℚ :=
  cln_2025_with_interest sc * (8/10)

/-- `series_c_equity = amount * equity_pct`. -/
def series_c_equity (sc : SeriesCAssumptions) : ℚ := sc.amount * sc.equityPct

/-- `total_dilutive_capital = series_c_equity + cln_2024_converted + cln_2025_converted`. -/
def total_dilutive_capital (sc : SeriesCAssumptions) : ℚ :=
  series_c_equity sc + cln_2024_converted sc + cln_2025_converted sc

/-- `series_c_price_per_share = pre_money_val / pre_series_c_shares`. -/
def series_c_price_per_share (sc : SeriesCAssumptions) (arr_at_close : ℚ) : ℚ :=
  pre_money_val sc arr_at_close / pre_series_c_shares

/-- `series_c_equity_shares = series_c_equity / series_c_price_per_share`. -/
def series_c_equity_shares (sc : SeriesCAssumptions) (arr_at_close : ℚ) : ℚ :=
  series_c_equity sc / series_c_price_per_share sc arr_at_close

/-- `cln_discount_price = series_c_price_per_share * 0.8`. -/
def cln_discount_price (sc : SeriesCAssumptions) (arr_at_close : ℚ) : ℚ :=
  series_c_price_per_share sc arr_at_close * (8/10)

/-- `cln_2024_shares = cln_2024_converted / cln_discount_price`. -/
def cln_2024_shares (sc : SeriesCAssumptions) (arr_at_close : ℚ) : ℚ :=
  cln_2024_converted sc / cln_discount_price sc arr_at_close

/-- `cln_2025_shares = cln_2025_converted / cln_discount_price`. -/
def cln_2025_shares (sc : SeriesCAssumptions) (arr_at_close : ℚ) : ℚ :=
  cln_2025_converted sc / cln_discount_price sc arr_at_close

/-- `total_series_c_shares = series_c_equity_shares + cln_2024_shares + cln_2025_shares`. -/
def total_series_c_shares (sc : SeriesCAssumptions) (arr_at_close : ℚ) : ℚ :=
  series_c_equity_shares sc arr_at_close + cln_2024_shares sc arr_at_close +
    cln_2025_shares sc arr_at_close

/-- `shares_after_c_before_options = pre_series_c_shares + total_series_c_shares`. -/
def shares_after_c_before_options (sc : SeriesCAssumptions) (arr_at_close : ℚ) : ℚ :=
  pre_series_c_shares + total_series_c_shares sc arr_at_close

/-- `target_option_pool_shares = shares_after_c_before_options * 0.15 / 0.85`. -/
def target_option_pool_shares (sc : SeriesCAssumptions) (arr_at_close : ℚ) : ℚ :=
  shares_after_c_before_options sc arr_at_close * (15/100) / (85/100)

/-- `option_pool_top_up = target_option_pool_shares - pre_series_c_option_pool`. -/
def option_pool_top_up (sc : SeriesCAssumptions) (arr_at_close : ℚ) : ℚ :=
  target_option_pool_shares sc arr_at_close - pre_series_c_option_pool

/-- `total_shares_c = shares_after_c_before_options + option_pool_top_up`. -/
def total_shares_c (sc : SeriesCAssumptions) (arr_at_close : ℚ) : ℚ :=
  shares_after_c_before_options sc arr_at_close + option_pool_top_up sc arr_at_close

/-- The round-7 record built by `add_series_c_round` (its `round_7` dict;
the prior stakeholder balances are read from `self.rounds[3]`). -/
def series_c_round (sc : SeriesCAssumptions) (arr_at_close : ℚ) : Round :=
  { year := 2026
    roundName := "Series C"
    investment := series_c_equity sc
    preMoneyVal := pre_money_val sc arr_at_close
    postMoneyVal := pre_money_val sc arr_at_close + total_dilutive_capital sc
    pricePerShare := series_c_price_per_share sc arr_at_close
    sharesIssuedThisRound := total_series_c_shares sc arr_at_close
    totalShares := total_shares_c sc arr_at_close
    optionPoolCreated := option_pool_top_up sc arr_at_close
    stakeholders :=
      { founder := round_4.stakeholders.founder
        seed := round_4.stakeholders.seed
        seriesA := round_4.stakeholders.seriesA
        seriesB := round_4.stakeholders.seriesB
        clnHolder := cln_2024_shares sc arr_at_close + cln_2025_shares sc arr_at_close
        seriesC := series_c_equity_shares sc arr_at_close
        optionPool := target_option_pool_shares sc arr_at_close } }

/-- `add_series_c_round` as executed by Python: the first division whose
denominator is exactly zero (`series_c_equity / series_c_price_per_share`,
reached iff the price per share is `0.0`) raises `ZeroDivisionError`;
otherwise the round record is produced.  No other failure site exists in
the method — in particular there is no validation of the three fraction
parameters and no sign check on the pre-money valuation. -/
def add_series_c_round (sc : SeriesCAssumptions) (arr_at_close : ℚ) : Except Unit Round :=
  if series_c_price_per_share sc arr_at_close = 0 then .error ()
  else .ok (series_c_round sc arr_at_close)

/-- `True` iff `add_series_c_round` terminated with an exception. -/
def raisesDivisionError (e : Except Unit Round) : Bool :=
  match e with
  | .error _ => true
  | .ok _ => false

/-- `self.rounds` after `add_series_c_round`: the full seven-round ledger. -/
def ledger (sc : SeriesCAssumptions) (arr_at_close : ℚ) : List Round :=
  [round_1, round_2, round_3, round_4, round_5, round_6, series_c_round sc arr_at_close]

/-! ## Exit waterfall (`exit_waterfall.py`) -/

/-- Return value of `ExitWaterfallCalculator.calculate_exit_valuation`. -/
structure ValuationResult where
  arrValuation : ℚ
  ebitdaValuation : ℚ
  finalValuation : ℚ
  valuationMethod : String

/-- `calculate_exit_valuation`: ARR- and EBITDA-multiple valuations, the
basis dispatch, and the `arr_valuation >= ebitda_valuation` tie-break of
the `higher_of_arr_or_ebitda` (or any other) basis. -/
def calculate_exit_valuation (ex : ExitAssumptions)
    (exit_year_arr exit_year_ebitda : ℚ) : ValuationResult :=
  let arr_valuation := exit_year_arr * ex.arrMultiple
  let ebitda_valuation := exit_year_ebitda * ex.ebitdaMultiple
  if ex.valuationBasis = "arr" then
    ⟨arr_valuation, ebitda_valuation, arr_valuation, "ARR"⟩
  else if ex.valuationBasis = "ebitda" then
    ⟨arr_valuation, ebitda_valuation, ebitda_valuation, "EBITDA"⟩
  else if ebitda_valuation ≤ arr_valuation then
    ⟨arr_valuation, ebitda_valuation, arr_valuation,
      "Higher of ARR/EBITDA (ARR Selected)"⟩
  else
    ⟨arr_valuation, ebitda_valuation, ebitda_valuation,
      "Higher of ARR/EBITDA (EBITDA Selected)"⟩

/-- `calculate_debt_to_repay`: the `debt_obligations` dict as an ordered
association list.  Each guard and balance formula mirrors the source:
CLN 2024 for `exit_year >= 2024`, CLN 2025 for `exit_year >= 2025`, and
the Series C debt and convertible tranches for
`exit_year >= close_date.year`, rolled up when so configured. -/
def calculate_debt_to_repay (hf : HistoricalFunding) (sc : SeriesCAssumptions)
    (exit_year : ℤ) : List (String × ℚ) :=
  (if 2024 ≤ exit_year then
    [("CLN 2024", hf.cln2024 * (1 + hf.cln2024Interest) ^ (exit_year - 2024).toNat)]
   else []) ++
  (if 2025 ≤ exit_year then
    [("CLN 2025", hf.cln2025 * (1 + hf.cln2025Interest) ^ (exit_year - 2025).toNat)]
   else []) ++
  (if sc.closeYear ≤ exit_year then
    [("Series C Debt",
      if sc.debtRolledUp then
        sc.amount * sc.debtPct * (1 + sc.debtInterestRate) ^ (exit_year - sc.closeYear).toNat
      else sc.amount * sc.debtPct)]
   else []) ++
  (if sc.closeYear ≤ exit_year then
    [("Series C Convertible",
      if sc.convertibleRolledUp then
        sc.amount * sc.convertiblePct *
          (1 + sc.convertibleInterestRate) ^ (exit_year - sc.closeYear).toNat
      else sc.amount * sc.convertiblePct)]
   else []) ++ []

/-- `total_debt = sum(debt_obligations.values())`. -/
def total_debt (hf : HistoricalFunding) (sc : SeriesCAssumptions) (exit_year : ℤ) : ℚ :=
  ((calculate_debt_to_repay hf sc exit_year).map Prod.snd).sum

/-- `proceeds_to_equity = exit_valuation - total_debt`
(`calculate_waterfall`, line 110: the subtraction is unguarded). -/
def proceeds_to_equity (ex : ExitAssumptions) (hf : HistoricalFunding)
    (sc : SeriesCAssumptions) (exit_year_arr exit_year_ebitda : ℚ) (exit_year : ℤ) : ℚ :=
  (calculate_exit_valuation ex exit_year_arr exit_year_ebitda).finalValuation -
    total_debt hf sc exit_year

/-- The `Proceeds` cell of one equity row of the waterfall:
`proceeds = proceeds_to_equity * ownership_pct` with
`ownership_pct = shares / total_shares` (from
`calculate_ownership_percentages`, where `Ownership % = shares/total*100`,
divided by 100 again in `calculate_waterfall`). -/
def equity_row_proceeds (pte shares totalShares : ℚ) : ℚ :=
  pte * (shares / totalShares)

/-- The `Proceeds` cell of the `TOTAL EQUITY` summary row
(`calculate_waterfall`, line 244): the unclamped `proceeds_to_equity`. -/
def total_equity_summary_proceeds (ex : ExitAssumptions) (hf : HistoricalFunding)
    (sc : SeriesCAssumptions) (exit_year_arr exit_year_ebitda : ℚ) (exit_year : ℤ) : ℚ :=
  proceeds_to_equity ex hf sc exit_year_arr exit_year_ebitda exit_year

/-! ## Orchestrator lookups (`financial_model.py`, `run_projections`) -/

/-- One row of the projected P&L frame, with the columns the orchestrator
reads back. -/
structure PLRow where
  year : ℤ
  arr : ℚ
  ebitda : ℚ

/-- The orchestrator's row lookup,
`row = pl_df[pl_df.Year == y]; v = row[col].values[0] if len(row) > 0 else 0`:
filter the frame on the year and take the first match, else `0`.  The
result is paired with the list of warnings this step reports; the source
emits none (lines 69-74 and 87-90 contain no warning, logging or print
call), so that list is always empty. -/
def lookup_year_value (pl : List PLRow) (y : ℤ) (col : PLRow → ℚ) : ℚ × List String :=
  match pl.filter (fun r => r.year = y) with
  | [] => (0, [])
  | r :: _ => (col r, [])

/-! ## Theorems -/

/-- C3: for every round in the ledger (Founder, Seed, Series A, Series B,
both CLN rounds and the Series C round added for any nonzero ARR at
close), the stakeholder share values sum exactly to
`total_shares_outstanding` — in particular within 1e-6 relative
tolerance. -/
theorem c3_share_conservation (arr : ℚ) (_h : arr ≠ 0) :
    ∀ r ∈ ledger defaultSeriesC arr, r.stakeholders.total = r.totalShares := by
  intro r hr
  simp only [ledger, List.mem_cons, List.not_mem_nil, or_false] at hr
  rcases hr with rfl | rfl | rfl | rfl | rfl | rfl | rfl <;>
    · simp only [round_1, round_2, round_3, round_4, round_5, round_6, series_c_round,
        Stakeholders.total, total_shares_seed, shares_after_seed, total_shares_a,
        shares_after_a, option_pool_top_up_a, total_shares_b, shares_after_b,
        option_pool_top_up_b, total_shares_c, option_pool_top_up,
        shares_after_c_before_options, total_series_c_shares, pre_series_c_shares,
        pre_series_c_option_pool]
      ring

/-- C3 witness: instantiated at the model's Series C close ARR. -/
theorem c3_share_conservation_witness :
    (10900000 : ℚ) ≠ 0 ∧
      ∀ r ∈ ledger defaultSeriesC 10900000, r.stakeholders.total = r.totalShares :=
  ⟨by norm_num, c3_share_conservation 10900000 (by norm_num)⟩

/-- C4: each CLN converts at the hybrid close into
`converted_capital / conversion_price` shares, with
`accrued_value = principal * (1+rate)^(close_year - issue_year)`,
`converted_capital = accrued_value * (1 - discount)` and
`conversion_price = reference_price * (1 - discount)` — the discount
(20%) applied both to the converting capital and to the price, using the
note parameters of `HistoricalFunding` (which the hard-coded literals of
`add_series_c_round` match). -/
theorem c4_conversion_formula (arr : ℚ) :
    cln_2024_shares defaultSeriesC arr =
      (defaultHistoricalFunding.cln2024 *
          (1 + defaultHistoricalFunding.cln2024Interest) ^ (defaultSeriesC.closeYear - 2024) *
          (1 - defaultHistoricalFunding.cln2024Discount)) /
        (series_c_price_per_share defaultSeriesC arr *
          (1 - defaultHistoricalFunding.cln2024Discount)) ∧
    cln_2025_shares defaultSeriesC arr =
      (defaultHistoricalFunding.cln2025 *
          (1 + defaultHistoricalFunding.cln2025Interest) ^ (defaultSeriesC.closeYear - 2025) *
          (1 - defaultHistoricalFunding.cln2025Discount)) /
        (series_c_price_per_share defaultSeriesC arr *
          (1 - defaultHistoricalFunding.cln2025Discount)) := by
  constructor
  · unfold cln_2024_shares cln_2024_converted cln_2024_with_interest cln_discount_price
    norm_num [defaultHistoricalFunding, defaultSeriesC]
  · unfold cln_2025_shares cln_2025_converted cln_2025_with_interest cln_discount_price
    norm_num [defaultHistoricalFunding, defaultSeriesC]

/-- C10: because the factor `1 - discount = 0.8` is nonzero, it cancels
between the converted capital and the discounted conversion price: each
note's share count equals its accrued value divided by the undiscounted
Series C reference price, while the discount still shrinks the recorded
converted-capital amounts. -/
theorem c10_discount_cancels (arr : ℚ) :
    cln_2024_shares defaultSeriesC arr =
      cln_2024_with_interest defaultSeriesC / series_c_price_per_share defaultSeriesC arr ∧
    cln_2025_shares defaultSeriesC arr =
      cln_2025_with_interest defaultSeriesC / series_c_price_per_share defaultSeriesC arr ∧
    cln_2024_converted defaultSeriesC =
      cln_2024_with_interest defaultSeriesC * (1 - defaultHistoricalFunding.cln2024Discount) ∧
    cln_2025_converted defaultSeriesC =
      cln_2025_with_interest defaultSeriesC * (1 - defaultHistoricalFunding.cln2025Discount) := by
  refine ⟨?_, ?_, ?_, ?_⟩
  · unfold cln_2024_shares cln_2024_converted cln_discount_price
    rw [mul_div_mul_right _ _ (by norm_num : (8/10 : ℚ) ≠ 0)]
  · unfold cln_2025_shares cln_2025_converted cln_discount_price
    rw [mul_div_mul_right _ _ (by norm_num : (8/10 : ℚ) ≠ 0)]
  · unfold cln_2024_converted
    norm_num [defaultHistoricalFunding]
  · unfold cln_2025_converted
    norm_num [defaultHistoricalFunding]

/-- C7: the exit-valuation selector is a pure function of the two values,
the two multiples and the basis: basis `"arr"` returns the ARR-multiple
valuation, `"ebitda"` the EBITDA-multiple valuation, and
`"higher_of_arr_or_ebitda"` their maximum, reporting the method used and
resolving ties to ARR. -/
theorem c7_valuation_selector (a e m₁ m₂ : ℚ) (y : ℤ) :
    (calculate_exit_valuation ⟨y, "arr", m₁, m₂⟩ a e).finalValuation = a * m₁ ∧
    (calculate_exit_valuation ⟨y, "arr", m₁, m₂⟩ a e).valuationMethod = "ARR" ∧
    (calculate_exit_valuation ⟨y, "ebitda", m₁, m₂⟩ a e).finalValuation = e * m₂ ∧
    (calculate_exit_valuation ⟨y, "ebitda", m₁, m₂⟩ a e).valuationMethod = "EBITDA" ∧
    (calculate_exit_valuation ⟨y, "higher_of_arr_or_ebitda", m₁, m₂⟩ a e).finalValuation =
      max (a * m₁) (e * m₂) ∧
    (calculate_exit_valuation ⟨y, "higher_of_arr_or_ebitda", m₁, m₂⟩ a e).valuationMethod =
      (if e * m₂ ≤ a * m₁ then "Higher of ARR/EBITDA (ARR Selected)"
       else "Higher of ARR/EBITDA (EBITDA Selected)") ∧
    (a * m₁ = e * m₂ →
      (calculate_exit_valuation ⟨y, "higher_of_arr_or_ebitda", m₁, m₂⟩ a e).valuationMethod =
        "Higher of ARR/EBITDA (ARR Selected)") := by
  refine ⟨?_, ?_, ?_, ?_, ?_, ?_, ?_⟩
  · simp [calculate_exit_valuation]
  · simp [calculate_exit_valuation]
  · simp [calculate_exit_valuation]
  · simp [calculate_exit_valuation]
  · rcases le_or_lt (e * m₂) (a * m₁) with h | h
    · simp [calculate_exit_valuation, h, max_eq_left h]
    · simp [calculate_exit_valuation, not_le.mpr h, max_eq_right h.le]
  · rcases le_or_lt (e * m₂) (a * m₁) with h | h
    · simp [calculate_exit_valuation, h]
    · simp [calculate_exit_valuation, not_le.mpr h]
  · intro htie
    simp [calculate_exit_valuation, htie.ge]

/-- C7 witness: the tie case at concrete equal valuations (10·2 = 4·5)
resolves to ARR. -/
theorem c7_valuation_selector_witness :
    (10 : ℚ) * 2 = 4 * 5 ∧
      (calculate_exit_valuation ⟨2030, "higher_of_arr_or_ebitda", 2, 5⟩ 10 4).valuationMethod =
        "Higher of ARR/EBITDA (ARR Selected)" :=
  ⟨by norm_num, (c7_valuation_selector 10 4 2 5 2030).2.2.2.2.2.2 (by norm_num)⟩

/-- C8: the Seed round's concrete numbers — pre-money 16,500,000, price
per share 1.65 exactly, and investor shares, option-pool top-up and total
shares equal to the quoted approximations within 1e-6 relative
tolerance. -/
theorem c8_seed_round_numbers :
    seed_pre_money = 16500000 ∧
    seed_price_per_share = 165/100 ∧
    abs (seed_investor_shares - 212121212/100) ≤ 212121212/100 * (1/1000000) ∧
    abs (option_pool_shares - 213903786/100) ≤ 213903786/100 * (1/1000000) ∧
    abs (total_shares_seed - 1426024998/100) ≤ 1426024998/100 * (1/1000000) := by
  norm_num [abs_le, seed_pre_money, seed_post_money, seed_investment, seed_price_per_share,
    seed_investor_shares, option_pool_shares, shares_after_seed, total_shares_seed,
    founder_shares]

/-- C1: evaluation of the debt-obligation step at the failing input
`exit_year = 2030` (at or after the default Series C close year 2026)
shows the bug: the 2024 and 2025 convertible notes convert to `CLN
Holder` shares at the close (so their terms are satisfied), yet
`calculate_debt_to_repay` still lists both notes, with balances
`principal * 1.08^(exit_year - origination_year)`, and they contribute
their full balances to `total_debt` — they are not skipped. -/
theorem c1_converted_notes_still_in_total_debt :
    defaultSeriesC.closeYear ≤ 2030 ∧
    0 < (series_c_round defaultSeriesC 10900000).stakeholders.clnHolder ∧
    ("CLN 2024", (6000000 : ℚ) * (108/100) ^ (6 : ℕ)) ∈
      calculate_debt_to_repay defaultHistoricalFunding defaultSeriesC 2030 ∧
    ("CLN 2025", (4000000 : ℚ) * (108/100) ^ (5 : ℕ)) ∈
      calculate_debt_to_repay defaultHistoricalFunding defaultSeriesC 2030 ∧
    (6000000 : ℚ) * (108/100) ^ (6 : ℕ) + (4000000 : ℚ) * (108/100) ^ (5 : ℕ) ≤
      total_debt defaultHistoricalFunding defaultSeriesC 2030 := by
  have hP : (0:ℚ) < pre_series_c_shares := by
    norm_num [pre_series_c_shares, total_shares_b, shares_after_b, option_pool_top_up_b,
      target_option_pool_b, series_b_investor_shares, series_b_price_per_share,
      series_b_pre_money, series_b_post_money, series_b_investment, total_shares_a,
      shares_after_a, option_pool_top_up_a, target_option_pool_a, series_a_investor_shares,
      series_a_price_per_share, series_a_pre_money, series_a_post_money, series_a_investment,
      total_shares_seed, shares_after_seed, option_pool_shares, seed_investor_shares,
      seed_price_per_share, seed_pre_money, seed_post_money, seed_investment, founder_shares]
  have hprice : 0 < series_c_price_per_share defaultSeriesC 10900000 := by
    unfold series_c_price_per_share
    refine div_pos ?_ hP
    norm_num [pre_money_val, defaultSeriesC]
  refine ⟨by norm_num [defaultSeriesC], ?_, ?_, ?_, ?_⟩
  · have h24 : 0 < cln_2024_shares defaultSeriesC 10900000 := by
      unfold cln_2024_shares cln_discount_price
      refine div_pos ?_ (by positivity)
      unfold cln_2024_converted cln_2024_with_interest
      positivity
    have h25 : 0 < cln_2025_shares defaultSeriesC 10900000 := by
      unfold cln_2025_shares cln_discount_price
      refine div_pos ?_ (by positivity)
      unfold cln_2025_converted cln_2025_with_interest
      positivity
    simp only [series_c_round]
    linarith
  · norm_num [calculate_debt_to_repay, defaultHistoricalFunding, defaultSeriesC,
      show ((6:ℤ).toNat = 6) from rfl, show ((5:ℤ).toNat = 5) from rfl,
      show ((4:ℤ).toNat = 4) from rfl]
  · norm_num [calculate_debt_to_repay, defaultHistoricalFunding, defaultSeriesC,
      show ((6:ℤ).toNat = 6) from rfl, show ((5:ℤ).toNat = 5) from rfl,
      show ((4:ℤ).toNat = 4) from rfl]
  · norm_num [total_debt, calculate_debt_to_repay, defaultHistoricalFunding, defaultSeriesC,
      show ((6:ℤ).toNat = 6) from rfl, show ((5:ℤ).toNat = 5) from rfl,
      show ((4:ℤ).toNat = 4) from rfl]

/-- C2 counterexample: at exit ARR 0 and EBITDA 0 in exit year 2030
(total debt ≈ £20.06M, exit valuation 0) the proceeds reported in the
`TOTAL EQUITY` summary row are strictly negative — the waterfall does
not clamp equity proceeds to zero. -/
theorem c2_counterexample :
    total_equity_summary_proceeds defaultExit defaultHistoricalFunding defaultSeriesC
      0 0 2030 < 0 := by
  simp only [total_equity_summary_proceeds, proceeds_to_equity]
  have hv : (calculate_exit_valuation defaultExit 0 0).finalValuation = 0 := by
    simp [calculate_exit_valuation, defaultExit]
  rw [hv]
  norm_num [total_debt, calculate_debt_to_repay, defaultHistoricalFunding, defaultSeriesC,
    show ((6:ℤ).toNat = 6) from rfl, show ((5:ℤ).toNat = 5) from rfl,
    show ((4:ℤ).toNat = 4) from rfl]

/-- C2 amended: the waterfall applies no clamp — the proceeds reported
in the `TOTAL EQUITY` summary row and used for pro-rata distribution
always equal `exit_valuation - total_debt`, and when total debt exceeds
the exit valuation that value is negative (the shortfall appears as a
negative summary entry; no exception is raised and no clamping to zero
occurs). -/
theorem c2_amended_no_clamp :
    (∀ (a e : ℚ) (yr : ℤ),
      total_equity_summary_proceeds defaultExit defaultHistoricalFunding defaultSeriesC
          a e yr =
        (calculate_exit_valuation defaultExit a e).finalValuation -
          total_debt defaultHistoricalFunding defaultSeriesC yr) ∧
    0 < total_debt defaultHistoricalFunding defaultSeriesC 2030 ∧
    total_equity_summary_proceeds defaultExit defaultHistoricalFunding defaultSeriesC
        0 0 2030 =
      -(total_debt defaultHistoricalFunding defaultSeriesC 2030) := by
  refine ⟨fun a e yr => rfl, ?_, ?_⟩
  · norm_num [total_debt, calculate_debt_to_repay, defaultHistoricalFunding, defaultSeriesC,
      show ((6:ℤ).toNat = 6) from rfl, show ((5:ℤ).toNat = 5) from rfl,
      show ((4:ℤ).toNat = 4) from rfl]
  · simp only [total_equity_summary_proceeds, proceeds_to_equity]
    have hv : (calculate_exit_valuation defaultExit 0 0).finalValuation = 0 := by
      simp [calculate_exit_valuation, defaultExit]
    rw [hv]
    ring

/-- C5 counterexample: with the hybrid fractions changed to 50/15/15
(summing to 0.8, not 1.0) the ledger still builds without any error, and
with a negative ARR at close (pre-money valuation negative) it also
builds without any error — no `ConfigurationError` validation exists. -/
theorem c5_counterexample :
    ({ defaultSeriesC with equityPct := 50/100 } : SeriesCAssumptions).equityPct +
        ({ defaultSeriesC with equityPct := 50/100 } : SeriesCAssumptions).debtPct +
        ({ defaultSeriesC with equityPct := 50/100 } : SeriesCAssumptions).convertiblePct ≠
      1 ∧
    raisesDivisionError
        (add_series_c_round { defaultSeriesC with equityPct := 50/100 } 10900000) = false ∧
    pre_money_val defaultSeriesC (-1) < 0 ∧
    raisesDivisionError (add_series_c_round defaultSeriesC (-1)) = false := by
  have hP : pre_series_c_shares ≠ 0 := by
    norm_num [pre_series_c_shares, total_shares_b, shares_after_b, option_pool_top_up_b,
      target_option_pool_b, series_b_investor_shares, series_b_price_per_share,
      series_b_pre_money, series_b_post_money, series_b_investment, total_shares_a,
      shares_after_a, option_pool_top_up_a, target_option_pool_a, series_a_investor_shares,
      series_a_price_per_share, series_a_pre_money, series_a_post_money, series_a_investment,
      total_shares_seed, shares_after_seed, option_pool_shares, seed_investor_shares,
      seed_price_per_share, seed_pre_money, seed_post_money, seed_investment, founder_shares]
  refine ⟨by norm_num [defaultSeriesC], ?_, by norm_num [pre_money_val, defaultSeriesC], ?_⟩
  · rw [add_series_c_round, if_neg, raisesDivisionError]
    unfold series_c_price_per_share
    exact div_ne_zero (by norm_num [pre_money_val, defaultSeriesC]) hP
  · rw [add_series_c_round, if_neg, raisesDivisionError]
    unfold series_c_price_per_share
    exact div_ne_zero (by norm_num [pre_money_val, defaultSeriesC]) hP

/-- C5 amended: ledger construction performs no validation at all — it
never fails on hybrid fractions that do not sum to 1.0, nor on a
negative pre-money valuation; the only failure is the unguarded
division by zero in `add_series_c_round`, which is raised exactly when
the Series C price per share is zero, i.e. iff
`arr_at_close * pre_money_arr_multiple = 0`. -/
theorem c5_amended_no_validation (sc : SeriesCAssumptions) (arr : ℚ) :
    raisesDivisionError (add_series_c_round sc arr) = true ↔
      arr * sc.preMoneyArrMultiple = 0 := by
  have hP : pre_series_c_shares ≠ 0 := by
    norm_num [pre_series_c_shares, total_shares_b, shares_after_b, option_pool_top_up_b,
      target_option_pool_b, series_b_investor_shares, series_b_price_per_share,
      series_b_pre_money, series_b_post_money, series_b_investment, total_shares_a,
      shares_after_a, option_pool_top_up_a, target_option_pool_a, series_a_investor_shares,
      series_a_price_per_share, series_a_pre_money, series_a_post_money, series_a_investment,
      total_shares_seed, shares_after_seed, option_pool_shares, seed_investor_shares,
      seed_price_per_share, seed_pre_money, seed_post_money, seed_investment, founder_shares]
  unfold add_series_c_round
  split_ifs with h
  · rw [series_c_price_per_share, pre_money_val, div_eq_zero_iff] at h
    simp only [raisesDivisionError]
    exact iff_of_true trivial (h.resolve_right hP)
  · simp only [raisesDivisionError]
    refine iff_of_false (by simp) ?_
    intro hc
    exact h (by rw [series_c_price_per_share, pre_money_val, hc, zero_div])

/-- C6 counterexample: immediately after the Series A option-pool
top-up, the pool fraction is ≈ 0.166895, not the 0.15 target: it is not
within 1e-6 relative tolerance of the configured fraction.  (The top-up
formula is applied to a share count that already contains the old pool,
while the old pool is subtracted from the new total only once.) -/
theorem c6_counterexample :
    ¬ (abs (round_3.stakeholders.optionPool / round_3.totalShares - 15/100) ≤
        (15/100) * (1/1000000)) := by
  rw [abs_of_nonneg (by
    norm_num [round_3, target_option_pool_a, total_shares_a, shares_after_a,
      option_pool_top_up_a, option_pool_shares, total_shares_seed, shares_after_seed,
      seed_investor_shares, seed_price_per_share, seed_pre_money, seed_post_money,
      seed_investment, founder_shares, series_a_investor_shares, series_a_price_per_share,
      series_a_pre_money, series_a_post_money, series_a_investment])]
  norm_num [round_3, target_option_pool_a, total_shares_a, shares_after_a,
    option_pool_top_up_a, option_pool_shares, total_shares_seed, shares_after_seed,
    seed_investor_shares, seed_price_per_share, seed_pre_money, seed_post_money,
    seed_investment, founder_shares, series_a_investor_shares, series_a_price_per_share,
    series_a_pre_money, series_a_post_money, series_a_investment]

/-- C6 amended: every top-up computes the closed form
`pool_after = shares_after_investment * t/(1-t)` with `t = 0.15`, but
because `shares_after_investment` already contains the pre-existing
pool, the post-top-up fraction `option_pool / total_shares` equals the
0.15 target only for the first top-up (Seed, where no pool existed
before); after the Series A, Series B and Series C top-ups the fraction
strictly exceeds 0.15. -/
theorem c6_amended_pool_fraction :
    round_2.stakeholders.optionPool / round_2.totalShares = 15/100 ∧
    option_pool_shares = shares_after_seed * ((15/100) / (1 - 15/100)) ∧
    target_option_pool_a = shares_after_a * ((15/100) / (1 - 15/100)) ∧
    target_option_pool_b = shares_after_b * ((15/100) / (1 - 15/100)) ∧
    15/100 < round_3.stakeholders.optionPool / round_3.totalShares ∧
    15/100 < round_4.stakeholders.optionPool / round_4.totalShares ∧
    ∀ arr : ℚ, 0 < arr →
      target_option_pool_shares defaultSeriesC arr =
        shares_after_c_before_options defaultSeriesC arr * ((15/100) / (1 - 15/100)) ∧
      15/100 < (series_c_round defaultSeriesC arr).stakeholders.optionPool /
        (series_c_round defaultSeriesC arr).totalShares := by
  refine ⟨?_, ?_, ?_, ?_, ?_, ?_, ?_⟩
  · norm_num [round_2, option_pool_shares, total_shares_seed, shares_after_seed,
      seed_investor_shares, seed_price_per_share, seed_pre_money, seed_post_money,
      seed_investment, founder_shares]
  · unfold option_pool_shares
    ring
  · unfold target_option_pool_a
    ring
  · unfold target_option_pool_b
    ring
  · norm_num [round_3, target_option_pool_a, total_shares_a, shares_after_a,
      option_pool_top_up_a, option_pool_shares, total_shares_seed, shares_after_seed,
      seed_investor_shares, seed_price_per_share, seed_pre_money, seed_post_money,
      seed_investment, founder_shares, series_a_investor_shares, series_a_price_per_share,
      series_a_pre_money, series_a_post_money, series_a_investment]
  · norm_num [round_4, target_option_pool_b, total_shares_b, shares_after_b,
      option_pool_top_up_b, target_option_pool_a, total_shares_a, shares_after_a,
      option_pool_top_up_a, option_pool_shares, total_shares_seed, shares_after_seed,
      seed_investor_shares, seed_price_per_share, seed_pre_money, seed_post_money,
      seed_investment, founder_shares, series_a_investor_shares, series_a_price_per_share,
      series_a_pre_money, series_a_post_money, series_a_investment,
      series_b_investor_shares, series_b_price_per_share, series_b_pre_money,
      series_b_post_money, series_b_investment]
  · intro arr harr
    have hP : (0:ℚ) < pre_series_c_shares := by
      norm_num [pre_series_c_shares, total_shares_b, shares_after_b, option_pool_top_up_b,
        target_option_pool_b, series_b_investor_shares, series_b_price_per_share,
        series_b_pre_money, series_b_post_money, series_b_investment, total_shares_a,
        shares_after_a, option_pool_top_up_a, target_option_pool_a, series_a_investor_shares,
        series_a_price_per_share, series_a_pre_money, series_a_post_money,
        series_a_investment, total_shares_seed, shares_after_seed, option_pool_shares,
        seed_investor_shares, seed_price_per_share, seed_pre_money, seed_post_money,
        seed_investment, founder_shares]
    have hp : (0:ℚ) < pre_series_c_option_pool := by
      norm_num [pre_series_c_option_pool, target_option_pool_b, shares_after_b,
        series_b_investor_shares, series_b_price_per_share, series_b_pre_money,
        series_b_post_money, series_b_investment, total_shares_a, shares_after_a,
        option_pool_top_up_a, target_option_pool_a, series_a_investor_shares,
        series_a_price_per_share, series_a_pre_money, series_a_post_money,
        series_a_investment, total_shares_seed, shares_after_seed, option_pool_shares,
        seed_investor_shares, seed_price_per_share, seed_pre_money, seed_post_money,
        seed_investment, founder_shares]
    have hPp : (0:ℚ) < pre_series_c_shares + pre_series_c_shares * (15/100) / (85/100) -
        pre_series_c_option_pool := by
      norm_num [pre_series_c_shares, pre_series_c_option_pool, total_shares_b,
        shares_after_b, option_pool_top_up_b, target_option_pool_b,
        series_b_investor_shares, series_b_price_per_share, series_b_pre_money,
        series_b_post_money, series_b_investment, total_shares_a, shares_after_a,
        option_pool_top_up_a, target_option_pool_a, series_a_investor_shares,
        series_a_price_per_share, series_a_pre_money, series_a_post_money,
        series_a_investment, total_shares_seed, shares_after_seed, option_pool_shares,
        seed_investor_shares, seed_price_per_share, seed_pre_money, seed_post_money,
        seed_investment, founder_shares]
    have hprice : 0 < series_c_price_per_share defaultSeriesC arr := by
      unfold series_c_price_per_share pre_money_val
      refine div_pos (mul_pos harr ?_) hP
      norm_num [defaultSeriesC]
    have hce : 0 < series_c_equity_shares defaultSeriesC arr := by
      unfold series_c_equity_shares
      exact div_pos (by norm_num [series_c_equity, defaultSeriesC]) hprice
    have h24 : 0 < cln_2024_shares defaultSeriesC arr := by
      unfold cln_2024_shares cln_discount_price
      refine div_pos ?_ (by positivity)
      unfold cln_2024_converted cln_2024_with_interest
      positivity
    have h25 : 0 < cln_2025_shares defaultSeriesC arr := by
      unfold cln_2025_shares cln_discount_price
      refine div_pos ?_ (by positivity)
      unfold cln_2025_converted cln_2025_with_interest
      positivity
    have hS : pre_series_c_shares < shares_after_c_before_options defaultSeriesC arr := by
      unfold shares_after_c_before_options total_series_c_shares
      linarith
    have htot : 0 < total_shares_c defaultSeriesC arr := by
      unfold total_shares_c option_pool_top_up target_option_pool_shares
      linarith
    refine ⟨by unfold target_option_pool_shares; ring, ?_⟩
    simp only [series_c_round]
    rw [lt_div_iff₀ htot]
    unfold total_shares_c option_pool_top_up target_option_pool_shares
    linarith

/-- C6 witness: instantiated at the model's Series C close ARR — the
post-Series-C pool fraction strictly exceeds the 0.15 target. -/
theorem c6_amended_pool_fraction_witness :
    (0:ℚ) < 10900000 ∧
      15/100 < (series_c_round defaultSeriesC 10900000).stakeholders.optionPool /
        (series_c_round defaultSeriesC 10900000).totalShares :=
  ⟨by norm_num,
    (c6_amended_pool_fraction.2.2.2.2.2.2 10900000 (by norm_num)).2⟩

/-- C9 counterexample: on a projection frame with no row for the
requested year, the orchestrator's lookup yields the value 0 and an
empty warning list — the fallback is silent, so no warning is reported,
contrary to the claim. -/
theorem c9_counterexample :
    lookup_year_value [] 2026 PLRow.arr = (0, []) := rfl

/-- C9 amended: whenever the projection output has no row for the
requested year, the orchestrator's lookup returns 0 and continues (it is
a total function and raises nothing), but it does so silently — the
reported-warning list is empty. -/
theorem c9_amended_silent_zero_fallback (pl : List PLRow) (y : ℤ) (col : PLRow → ℚ)
    (h : ∀ r ∈ pl, r.year ≠ y) : lookup_year_value pl y col = (0, []) := by
  unfold lookup_year_value
  have hf : pl.filter (fun r => r.year = y) = [] := by
    rw [List.filter_eq_nil_iff]
    intro a ha
    simp [h a ha]
  rw [hf]

/-- C9 witness: a frame holding only a 2030 row has no 2026 row, and the
Series-C-year ARR lookup on it returns 0 with no warning. -/
theorem c9_amended_silent_zero_fallback_witness :
    (∀ r ∈ [PLRow.mk 2030 5 7], r.year ≠ (2026:ℤ)) ∧
      lookup_year_value [PLRow.mk 2030 5 7] 2026 PLRow.arr = (0, []) :=
  ⟨by norm_num, c9_amended_silent_zero_fallback _ _ _ (by norm_num)⟩

end FinModel
